import Mathlib

/-!
Verification of the state machine of the narrative runtime (NarrativeEngine) and
scoring logic (EvaluationEngine), shallowly embedded from the TypeScript
source.  Chemistry values are modelled as rationals; external collaborators
(dialogue generation, safety validation, embeddings) appear as explicit
inputs (produced lines, safety verdicts, semantic-novelty scores).  Telemetry
emission, ids and timestamps are elided: they are write-only with respect to
every property considered here.
-/

namespace NudgeNBlush

/-- Acts 1 through 5 (the TypeScript `Act = 1 | 2 | 3 | 4 | 5` union). -/
inductive Act : Type
  | one | two | three | four | five
deriving DecidableEq, Repr

/-- The numeric value of an act, as written in the source. -/
def Act.toNat : Act → Nat
  | .one => 1
  | .two => 2
  | .three => 3
  | .four => 4
  | .five => 5

/-- The closed union `NudgeType` of intervention types. -/
inductive NudgeType : Type
  | raise_stakes | comfort | vulnerability | recall | aside | tempo_up | tempo_down
deriving DecidableEq, Repr

/-- `NudgeIntensity`: minor or major. -/
inductive NudgeIntensity : Type
  | minor | major
deriving DecidableEq, Repr

/-- Per-line relationship delta vector (`ChemistryDeltas`). -/
structure ChemistryDeltas where
  attraction : ℚ
  trust : ℚ
  tension : ℚ
  comfort : ℚ
deriving DecidableEq, Repr

/-- One pair record of the Love Graph (`LoveGraphPair`). -/
structure LoveGraphPair where
  attraction : ℚ
  trust : ℚ
  tension : ℚ
  comfort : ℚ
deriving DecidableEq, Repr

/-- `Math.max` on two rationals, as an executable selection
(Mathlib `max` on ℚ does not reduce in the kernel). -/
def qmax (a b : ℚ) : ℚ := if a ≤ b then b else a

/-- `Math.min` on two rationals. -/
def qmin (a b : ℚ) : ℚ := if a ≤ b then a else b

/-- `Math.max(0, Math.min(1, x))` — the clamp applied after every mutation. -/
def clamp01 (x : ℚ) : ℚ := qmax 0 (qmin 1 x)

/-- Clamp every dimension of a pair
(the `Object.keys(pair).forEach(... clamp ...)` loop). -/
def clampPair (p : LoveGraphPair) : LoveGraphPair :=
  ⟨clamp01 p.attraction, clamp01 p.trust, clamp01 p.tension, clamp01 p.comfort⟩

/-! ### Text helpers

The source uses `text.toLowerCase().includes(w)`, `text.split` on spaces and
JS `Set`-based Jaccard similarity.  They are embedded here on `List Char`
so that every definition evaluates by kernel reduction. -/

/-- `text.toLowerCase()` (the source only ever compares ASCII words). -/
def lowerStr (s : String) : String := String.mk (s.data.map Char.toLower)

/-- Does `pat` occur at the head of `s`? -/
def charsHeadMatch : List Char → List Char → Bool
  | [], _ => true
  | _ :: _, [] => false
  | a :: as, b :: bs => a == b && charsHeadMatch as bs

/-- Does `pat` occur anywhere in `s`? -/
def charsContains (pat : List Char) : List Char → Bool
  | [] => charsHeadMatch pat []
  | c :: rest => charsHeadMatch pat (c :: rest) || charsContains pat rest

/-- `s.includes(pat)` on strings. -/
def strContains (s pat : String) : Bool := charsContains pat.data s.data

/-- `line.text.toLowerCase().includes(w)`. -/
def textIncludes (text w : String) : Bool := strContains (lowerStr text) w

/-- `text.split` at space characters (keeps empty fragments, exactly like JS). -/
def splitSpAux : List Char → List Char → List String
  | [], acc => [String.mk acc.reverse]
  | c :: rest, acc =>
    if c == ' ' then String.mk acc.reverse :: splitSpAux rest []
    else splitSpAux rest (c :: acc)

def splitWords (s : String) : List String := splitSpAux s.data []

/-- Bool membership in a list of strings. -/
def strMem (x : String) : List String → Bool
  | [] => false
  | y :: r => x == y || strMem x r

/-- Deduplicate keeping first occurrences (a JS `Set` built by insertion). -/
def dedupAux (seen : List String) : List String → List String
  | [] => []
  | x :: r => if strMem x seen then dedupAux seen r else x :: dedupAux (x :: seen) r

def dedupStr (l : List String) : List String := dedupAux [] l

/-- Division of a rational by a natural count, written through `mkRat` so
that it evaluates by kernel reduction (the source divides floats; every
divisor in scope is a positive count). -/
def divNat (a : ℚ) (n : Nat) : ℚ := mkRat a.num (a.den * n)

/-- `calculateTextSimilarity`: Jaccard similarity of the two word sets. -/
def calculateTextSimilarity (t1 t2 : String) : ℚ :=
  let words1 := dedupStr (splitWords (lowerStr t1))
  let words2 := dedupStr (splitWords (lowerStr t2))
  let inter := (words1.filter (fun x => strMem x words2)).length
  let union := (dedupStr (words1 ++ words2)).length
  mkRat inter union

/-- Lexicographic comparison by code points, as the JS default sort
compares strings (identical to code-unit order on these ASCII names). -/
def charsLe : List Char → List Char → Bool
  | [], _ => true
  | _ :: _, [] => false
  | a :: as, b :: bs => if a == b then charsLe as bs else decide (a.toNat < b.toNat)

def strLeB (a b : String) : Bool := charsLe a.data b.data

/-- Insertion of a string into a sorted list, for `Array.prototype.sort`. -/
def insertSorted (s : String) : List String → List String
  | [] => [s]
  | t :: ts => if strLeB s t then s :: t :: ts else t :: insertSorted s ts

/-- `spotlight.sort()` (lexicographic, as JS default sort on these names). -/
def sortStrings (l : List String) : List String := l.foldr insertSorted []

/-- `list.join` with a dash separator. -/
def joinDash : List String → String
  | [] => ""
  | [s] => s
  | s :: rest => s ++ "-" ++ joinDash rest

/-! ### Narrative data model -/

/-- Immutable record of one utterance; ids, timestamps and latency are
elided (they never feed back into the state machine). -/
structure SpokenLine where
  speaker : String
  text : String
  deltas : ChemistryDeltas
deriving DecidableEq, Repr

/-- A produced line as returned by the character orchestrator (`FinalLine`):
the text plus the callback tokens it consumed. -/
structure FinalLine where
  speaker : String
  text : String
  deltas : ChemistryDeltas
  usedTokens : List String
deriving DecidableEq, Repr

/-- A requested steering intervention (`Nudge`). -/
structure Nudge where
  type : NudgeType
  intensity : NudgeIntensity
  token : Option String := none
deriving DecidableEq, Repr

/-- One contiguous segment of one act (`Scene`); ids and timestamps elided. -/
structure Scene where
  act : Act
  index : Nat
  spotlightPair : List String
  majorNudges : Nat
  minorNudges : Nat
  endedReason : Option String
deriving DecidableEq, Repr

/-- The Love Graph: unordered-pair key to pair record, in insertion order. -/
abbrev LoveGraph := List (String × LoveGraphPair)

/-- Root story aggregate (`Episode`); archive-only fields
(ids, timestamps, closed-scene list, vibe/setting strings) are elided. -/
structure Episode where
  actPath : List Act
  loveGraph : LoveGraph
deriving DecidableEq, Repr

/-- The post-major-nudge recovery window. -/
structure RecoveryBias where
  exchangesLeft : Int
deriving DecidableEq, Repr

/-- `StoryState`: the per-episode mutable state of the engine. -/
structure StoryState where
  episode : Episode
  currentScene : Scene
  spotlight : List String
  recentLines : List SpokenLine
  openLoops : List String
  callbacks : List String
  pendingNudges : List Nudge
  plateauCounter : Nat
  lastMajorNudgeExchange : Nat
  recoveryBias : Option RecoveryBias
deriving DecidableEq, Repr

/-- Engine state with an active episode: the `currentState` story record
plus the exchange counter held on the engine object. -/
structure EngineSt where
  story : StoryState
  exchangeCounter : Nat
deriving DecidableEq, Repr

/-- A `scene.transition` event (acts and scene indices; ids elided). -/
structure SceneTransition where
  fromAct : Act
  toAct : Act
  fromScene : Nat
  toScene : Nat
  reason : String
deriving DecidableEq, Repr

/-! ### Static policy tables -/

/-- `CheckpointType` union. -/
inductive CheckpointType : Type
  | mutual_spark | explicit_conflict | need_boundary | relational_choice
deriving DecidableEq, Repr

/-- Static act-transition rule (`Checkpoint`); description elided. -/
structure Checkpoint where
  ctype : CheckpointType
  fromAct : Act
  toAct : Act
deriving DecidableEq, Repr

/-- The `checkpoints` table of `NarrativeEngine`. -/
def checkpoints : List Checkpoint :=
  [ ⟨.mutual_spark, .one, .two⟩,
    ⟨.explicit_conflict, .two, .three⟩,
    ⟨.need_boundary, .three, .four⟩,
    ⟨.relational_choice, .four, .five⟩ ]

/-- Per-act gate policy (`ActGate`); description elided. -/
structure ActGate where
  allowedNudges : List NudgeType
  blockedNudges : List NudgeType
  coherenceWeight : ℚ
deriving Repr

/-- The `actGates` table of `NarrativeEngine`. -/
def actGates : Act → ActGate
  | .one => ⟨[.comfort, .vulnerability, .recall, .tempo_down], [.raise_stakes], mkRat 7 10⟩
  | .two => ⟨[.comfort, .vulnerability, .recall, .aside, .tempo_up, .raise_stakes], [], mkRat 9 10⟩
  | .three => ⟨[.raise_stakes, .vulnerability, .aside, .tempo_up], [.comfort], mkRat 12 10⟩
  | .four => ⟨[.comfort, .vulnerability, .recall, .tempo_down], [.raise_stakes], mkRat 16 10⟩
  | .five => ⟨[.comfort, .recall, .tempo_down], [.raise_stakes, .aside], mkRat 18 10⟩

/-! ### NarrativeEngine operations -/

/-- First binding of a key in the Love Graph (JS object property read). -/
def lookupPair : LoveGraph → String → Option LoveGraphPair
  | [], _ => none
  | (k, p) :: rest, key => if k == key then some p else lookupPair rest key

/-- Overwrite the binding of a key in place (JS object property mutation). -/
def setPair : LoveGraph → String → LoveGraphPair → LoveGraph
  | [], _, _ => []
  | (k, p) :: rest, key, v =>
    if k == key then (k, v) :: rest else (k, p) :: setPair rest key v

/-- `spotlight.sort().join` with a dash: the Love Graph key of the spotlight. -/
def spotlightKey (s : StoryState) : String := joinDash (sortStrings s.spotlight)

/-- `actPath[actPath.length - 1]` (the path is never empty: it starts as
`[1]` and is only ever pushed to). -/
def getCurrentAct (s : StoryState) : Act := (s.episode.actPath.getLast?).getD .one

/-- The Love Graph initialisation of `startEpisode`: one entry per `i < j` pair,
keyed `chars[i]-chars[j]`, at the low baseline values. -/
def initPairs : List String → LoveGraph
  | [] => []
  | c :: rest => rest.map (fun d => (c ++ "-" ++ d, ⟨mkRat 1 10, mkRat 1 10, mkRat 2 10, mkRat 1 10⟩)) ++ initPairs rest

/-- Episode seed (`EpisodeSeed`); vibe/setting strings are carried along
but never branch the state machine, so they are elided here. -/
structure EpisodeSeed where
  characters : List String
  openLoops : List String := []
  callbacks : List String := []
  importSeed : Bool := false
deriving Repr

/-- The story state built by `startEpisode`.  Note: the source performs
no character-count check; with fewer than two characters, the JS
out-of-range reads `characters[0]` / `characters[1]` yield `undefined`
rather than throwing (here: the spotlight is the defined prefix).
When `importSeed` is set, `importSeedContext` pushes the callbacks
and open loops of the seed a second time onto lists already initialised from the seed. -/
def startEpisodeState (seed : EpisodeSeed) : StoryState :=
  let loveGraph := initPairs seed.characters
  let spotlight := seed.characters.take 2
  let scene : Scene := ⟨.one, 0, spotlight, 0, 0, none⟩
  let base : StoryState :=
    { episode := ⟨[.one], loveGraph⟩
      currentScene := scene
      spotlight := spotlight
      recentLines := []
      openLoops := seed.openLoops
      callbacks := seed.callbacks
      pendingNudges := []
      plateauCounter := 0
      lastMajorNudgeExchange := 0
      recoveryBias := none }
  if seed.importSeed then
    { base with callbacks := base.callbacks ++ seed.callbacks,
                openLoops := base.openLoops ++ seed.openLoops }
  else base

/-- Read-only episode summary (`EpisodeSummary`); ids and snapshots of
archive-only data elided. -/
structure EpisodeSummary where
  act : Act
  scene : Nat
  spotlight : List String
  openLoops : List String
deriving Repr

def buildEpisodeSummary (s : StoryState) : EpisodeSummary :=
  ⟨getCurrentAct s, s.currentScene.index, s.spotlight, s.openLoops⟩

/-- `startEpisode` as the caller observes it.  The source body contains no
failure path at all — no character-count validation, no throw — so the
result is always `ok`. -/
def startEpisode (seed : EpisodeSeed) : Except String EpisodeSummary :=
  Except.ok (buildEpisodeSummary (startEpisodeState seed))

/-- `applyNudge` with an active episode.  `safe` is the verdict of the
external safety collaborator (`safety.validateContent`).  Mirrors the source
check order: act gate (blocked, then allowed), major cadence, safety; on
acceptance the nudge is queued and the major/minor bookkeeping performed. -/
def applyNudgeStory (s : StoryState) (exchangeCounter : Nat) (n : Nudge)
    (safe : Bool) : StoryState × Bool :=
  let actGate := actGates (getCurrentAct s)
  if actGate.blockedNudges.contains n.type then (s, false)
  else if !(actGate.allowedNudges.contains n.type) then (s, false)
  else if n.intensity == .major && exchangeCounter - s.lastMajorNudgeExchange < 6 then
    (s, false)
  else if !safe then (s, false)
  else
    let s1 := { s with pendingNudges := s.pendingNudges ++ [n] }
    if n.intensity == .major then
      ({ s1 with lastMajorNudgeExchange := exchangeCounter
                 currentScene := { s1.currentScene with majorNudges := s1.currentScene.majorNudges + 1 }
                 recoveryBias := some ⟨2⟩ }, true)
    else
      ({ s1 with currentScene := { s1.currentScene with minorNudges := s1.currentScene.minorNudges + 1 } }, true)

/-- Engine-level `applyNudge`: with no active episode the call is rejected. -/
def applyNudge (st : Option EngineSt) (n : Nudge) (safe : Bool) :
    Option EngineSt × Bool :=
  match st with
  | none => (none, false)
  | some e =>
    (some ⟨(applyNudgeStory e.story e.exchangeCounter n safe).1, e.exchangeCounter⟩,
      (applyNudgeStory e.story e.exchangeCounter n safe).2)

/-- `rippleStrength = 0.1` — watchers get 10% of the effect. -/
def rippleStrength : ℚ := mkRat 1 10

/-- The body of `applyRippleEffects` for one non-spotlighted pair:
compersion for positive attraction/comfort, jealousy above the tension
threshold, then the clamp loop. -/
def ripplePair (d : ChemistryDeltas) (p : LoveGraphPair) : LoveGraphPair :=
  let p1 :=
    if 0 < d.attraction ∨ 0 < d.comfort then
      { p with attraction := p.attraction + d.attraction * rippleStrength
               comfort := p.comfort + d.comfort * rippleStrength }
    else p
  let p2 :=
    if mkRat 1 10 < d.tension then
      { p1 with tension := p1.tension + d.tension * rippleStrength * mkRat 5 10
                trust := p1.trust - d.tension * rippleStrength * mkRat 3 10 }
    else p1
  clampPair p2

/-- `applyRippleEffects`: every tracked pair except the primary one is
rippled (the primary pair is skipped by the early `return`). -/
def applyRippleEffects (d : ChemistryDeltas) (primaryPairKey : String)
    (g : LoveGraph) : LoveGraph :=
  g.map (fun e => if e.1 == primaryPairKey then e else (e.1, ripplePair d e.2))

/-- `updateLoveGraph`: add the deltas of the line to the spotlighted pair, clamp,
then ripple to the other pairs.  When the spotlight key is untracked
(`currentPair` undefined) nothing happens. -/
def updateLoveGraph (s : StoryState) (line : SpokenLine) : StoryState :=
  let pairKey := spotlightKey s
  match lookupPair s.episode.loveGraph pairKey with
  | none => s
  | some cur =>
    let updated := clampPair
      ⟨cur.attraction + line.deltas.attraction,
       cur.trust + line.deltas.trust,
       cur.tension + line.deltas.tension,
       cur.comfort + line.deltas.comfort⟩
    let g1 := setPair s.episode.loveGraph pairKey updated
    let g2 := applyRippleEffects line.deltas pairKey g1
    { s with episode := { s.episode with loveGraph := g2 } }

/-- `checkActAdvancement`: find the checkpoint leaving the current act and
evaluate its predicate against the spotlighted pair and recent lines. -/
def checkActAdvancement (s : StoryState) : Option Checkpoint :=
  let currentAct := getCurrentAct s
  match checkpoints.find? (fun c => c.fromAct == currentAct) with
  | none => none
  | some cp =>
    match lookupPair s.episode.loveGraph (spotlightKey s) with
    | none => none
    | some loveData =>
      match cp.ctype with
      | .mutual_spark =>
        let hasReciprocal := decide (mkRat 4 10 ≤ loveData.attraction)
        let hasSharedMoment := decide (0 < s.callbacks.length) ||
          s.recentLines.any (fun l => decide (mkRat 5 100 < l.deltas.trust))
        if hasReciprocal && hasSharedMoment then some cp else none
      | .explicit_conflict =>
        let hasConflict := decide (mkRat 6 10 ≤ loveData.tension)
        let hasSpokenDisagreement := s.recentLines.any (fun l =>
          textIncludes l.text "disagree" || textIncludes l.text "wrong" ||
          decide (mkRat 1 10 < l.deltas.tension))
        if hasConflict && hasSpokenDisagreement then some cp else none
      | .need_boundary =>
        let hasTrust := decide (mkRat 6 10 ≤ loveData.trust)
        let hasBoundaryStatement := s.recentLines.any (fun l =>
          textIncludes l.text "need" || textIncludes l.text "want" ||
          textIncludes l.text "boundary")
        if hasTrust && hasBoundaryStatement then some cp else none
      | .relational_choice =>
        let hasCommitment := s.recentLines.any (fun l =>
          textIncludes l.text "choose" || textIncludes l.text "want us" ||
          textIncludes l.text "together")
        if hasCommitment then some cp else none

/-- `advanceAct`: push the destination act, close the scene, open the next
scene with the index incremented, reset the plateau counter and report the
transition event. -/
def advanceAct (s : StoryState) (cp : Checkpoint) : StoryState × SceneTransition :=
  let newScene : Scene := ⟨cp.toAct, s.currentScene.index + 1, s.spotlight, 0, 0, none⟩
  let s' := { s with
    episode := { s.episode with actPath := s.episode.actPath ++ [cp.toAct] }
    currentScene := newScene
    plateauCounter := 0 }
  (s', ⟨cp.fromAct, cp.toAct, newScene.index - 1, newScene.index, "checkpoint"⟩)

/-- The pairwise-repetition test of `checkPlateau`
(`recentDeltas.some((line, i) => recentDeltas.slice(i+1).some(...))`). -/
def anyPairSimilar : List SpokenLine → Bool
  | [] => false
  | l :: rest =>
    rest.any (fun o => decide (mkRat 8 10 < calculateTextSimilarity l.text o.text)) ||
    anyPairSimilar rest

/-- `checkPlateau`: on the last three lines, low average delta magnitude or
near-duplicate text bumps the plateau counter, anything else resets it. -/
def checkPlateau (s : StoryState) : StoryState :=
  let recentDeltas := s.recentLines.drop (s.recentLines.length - 3)
  if recentDeltas.length < 3 then s
  else
    let total := recentDeltas.foldl (fun acc l =>
      acc + |l.deltas.attraction| + |l.deltas.trust| +
      |l.deltas.tension| + |l.deltas.comfort|) 0
    let avgDeltaMagnitude := divNat total (recentDeltas.length * 4)
    let hasRepetition := anyPairSimilar recentDeltas
    if decide (avgDeltaMagnitude < mkRat 2 100) || hasRepetition then
      { s with plateauCounter := s.plateauCounter + 1 }
    else
      { s with plateauCounter := 0 }

/-- `processLine`: record the spoken line in the bounded rolling window
(last 16) and consume any used callback tokens. -/
def processLine (s : StoryState) (fl : FinalLine) : StoryState × SpokenLine :=
  let line : SpokenLine := ⟨fl.speaker, fl.text, fl.deltas⟩
  let recent := s.recentLines ++ [line]
  let recent := if recent.length > 16 then recent.drop (recent.length - 16) else recent
  let callbacks :=
    if 0 < fl.usedTokens.length then
      s.callbacks.filter (fun t => !(fl.usedTokens.contains t))
    else s.callbacks
  ({ s with recentLines := recent, callbacks := callbacks }, line)

/-- The per-line body of the loop in `tick`: process the line, update the Love
Graph, run the checkpoint detector (advancing on success), then the plateau
detector. -/
def tickStep (s : StoryState) (fl : FinalLine) : StoryState × Option SceneTransition :=
  let s1 := (processLine s fl).1
  let line := (processLine s fl).2
  let s2 := updateLoveGraph s1 line
  match checkActAdvancement s2 with
  | some cp => (checkPlateau (advanceAct s2 cp).1, some (advanceAct s2 cp).2)
  | none => (checkPlateau s2, none)

/-- The loop of `tick` over the produced lines, collecting the transitions. -/
def tickLoop (s : StoryState) : List FinalLine → StoryState × List SceneTransition
  | [] => (s, [])
  | fl :: rest =>
    let s1 := (tickStep s fl).1
    let s2 := (tickLoop s1 rest).1
    let trs := (tickLoop s1 rest).2
    (s2, match (tickStep s fl).2 with | some t => t :: trs | none => trs)

/-- `updateRecoveryBias`: tick the recovery window down, dropping it at 0. -/
def updateRecoveryBias (s : StoryState) : StoryState :=
  match s.recoveryBias with
  | none => s
  | some rb =>
    let left := rb.exchangesLeft - 1
    if left ≤ 0 then { s with recoveryBias := none }
    else { s with recoveryBias := some ⟨left⟩ }

/-- `tick` with an active episode, given the lines the external character
orchestrator produced this exchange: bump the exchange counter, run the
per-line loop, consume pending nudges, update the recovery window. -/
def tickStory (s : StoryState) (lines : List FinalLine) : StoryState × List SceneTransition :=
  let s1 := (tickLoop s lines).1
  let s2 := updateRecoveryBias { s1 with pendingNudges := [] }
  (s2, (tickLoop s lines).2)

/-- Engine-level `tick`: throws (`Except.error`) when no episode is active. -/
def tick (st : Option EngineSt) (lines : List FinalLine) :
    Except String (EngineSt × List SceneTransition) :=
  match st with
  | none => Except.error "No active episode to tick"
  | some e =>
    Except.ok (⟨(tickStory e.story lines).1, e.exchangeCounter + 1⟩,
      (tickStory e.story lines).2)

/-! ### Episode runs -/

/-- One externally driven step against an active episode: a tick carrying
the lines the orchestrator produced, or a nudge request carrying the safety
verdict of the safety collaborator. -/
inductive Event : Type
  | tickEv (lines : List FinalLine)
  | nudgeEv (n : Nudge) (safe : Bool)

/-- Apply one event to an active-episode engine state. -/
def stepEv (st : EngineSt) : Event → EngineSt
  | .tickEv lines => ⟨(tickStory st.story lines).1, st.exchangeCounter + 1⟩
  | .nudgeEv n safe => ⟨(applyNudgeStory st.story st.exchangeCounter n safe).1, st.exchangeCounter⟩

/-- Run a sequence of events. -/
def runEvents (st : EngineSt) : List Event → EngineSt
  | [] => st
  | e :: evs => runEvents (stepEv st e) evs

/-- The exchange indices at which major nudges were accepted during a run
(in order). -/
def acceptedMajors (st : EngineSt) : List Event → List Nat
  | [] => []
  | e :: evs =>
    let rest := acceptedMajors (stepEv st e) evs
    match e with
    | .tickEv _ => rest
    | .nudgeEv n safe =>
      if (applyNudgeStory st.story st.exchangeCounter n safe).2 && n.intensity == .major then
        st.exchangeCounter :: rest
      else rest

/-! ### EvaluationEngine scoring -/

/-- `actCoherenceWeights` of the Evaluation Engine. -/
def actCoherenceWeights : Act → ℚ
  | .one => mkRat 7 10
  | .two => mkRat 9 10
  | .three => mkRat 12 10
  | .four => mkRat 16 10
  | .five => mkRat 18 10

/-- `calculateLambda`: act base weight × (0.6 + fragility × 1.2). -/
def calculateLambda (fragility : ℚ) (act : Act) : ℚ :=
  let baseWeight := actCoherenceWeights act
  let fragilityMultiplier := mkRat 6 10 + fragility * mkRat 12 10
  baseWeight * fragilityMultiplier

/-- `FragilityComponents`. -/
structure FragilityComponents where
  highTension : ℚ
  lowTrust : ℚ
  recentContradictions : ℚ
  total : ℚ
deriving Repr

/-- `FreshnessComponents`. -/
structure FreshnessComponents where
  semanticNovelty : ℚ
  diversityBonus : ℚ
  stagnationBuster : ℚ
  callbackRevival : ℚ
  total : ℚ
deriving Repr

/-- `CoherenceComponents`. -/
structure CoherenceComponents where
  personaDrift : ℚ
  actGrammarViolation : ℚ
  continuityContradiction : ℚ
  safetyGuard : ℚ
  total : ℚ
deriving Repr

/-- `EvaluationScores` reported for each candidate. -/
structure EvaluationScores where
  freshnessGain : ℚ
  coherenceCost : ℚ
  fragilityIndex : ℚ
  finalScore : ℚ
deriving Repr

/-- `calculateFragilityIndex` of the Evaluation Engine, on the rolling list
of recent delta vectors plus the contradiction score from the rolling text
window (`detectContradictions`, supplied by the caller here since it scans
the text window). -/
def calculateFragilityIndex (recentDeltas : List ChemistryDeltas)
    (recentContradictions : ℚ) : FragilityComponents :=
  let avgTension :=
    if 0 < recentDeltas.length then
      divNat (recentDeltas.foldl (fun acc d => acc + d.tension) 0) recentDeltas.length
    else mkRat 2 10
  let highTension := qmax 0 (avgTension - mkRat 5 10) * 2
  let avgTrust :=
    if 0 < recentDeltas.length then
      divNat (recentDeltas.foldl (fun acc d => acc + d.trust) 0) recentDeltas.length
    else mkRat 3 10
  let lowTrust := qmax 0 (mkRat 5 10 - avgTrust) * 2
  let total := qmin 1 (mkRat 4 10 * highTension + mkRat 4 10 * lowTrust + mkRat 2 10 * recentContradictions)
  ⟨highTension, lowTrust, recentContradictions, total⟩

/-- `calculateDiversityBonus`: penalise recently chosen nudge types
(`recentChosenTypes` is the type list of the last ten chosen snapshots). -/
def calculateDiversityBonus (recentChosenTypes : List NudgeType) (t : NudgeType) : ℚ :=
  let recentUsage := (recentChosenTypes.filter (fun x => x == t)).length
  qmax 0 (1 - (recentUsage : ℚ) * mkRat 3 10)

/-- `calculateStagnationBuster`: bonus when the last three delta vectors
are flattening. -/
def calculateStagnationBuster (recentDeltas : List ChemistryDeltas) : ℚ :=
  if recentDeltas.length < 3 then 0
  else
    let recentMagnitudes := (recentDeltas.drop (recentDeltas.length - 3)).map (fun d =>
      |d.attraction| + |d.trust| + |d.tension| + |d.comfort|)
    let avgMagnitude := divNat (recentMagnitudes.foldl (· + ·) 0) recentMagnitudes.length
    if avgMagnitude < mkRat 5 100 then mkRat 8 10 else mkRat 2 10

/-- `calculateFreshnessGain`.  `semanticNovelty` is the embedding-based
novelty score (an external OpenAI call in the source). -/
def calculateFreshnessGain (semanticNovelty : ℚ) (candidate : Nudge)
    (recentChosenTypes : List NudgeType) (recentDeltas : List ChemistryDeltas) :
    FreshnessComponents :=
  let diversityBonus := calculateDiversityBonus recentChosenTypes candidate.type
  let stagnationBuster := calculateStagnationBuster recentDeltas
  let callbackRevival : ℚ := if candidate.token.isSome then mkRat 3 10 else 0
  let total := qmin 1
    (mkRat 4 10 * semanticNovelty + mkRat 3 10 * diversityBonus +
     mkRat 2 10 * stagnationBuster + mkRat 1 10 * callbackRevival)
  ⟨semanticNovelty, diversityBonus, stagnationBuster, callbackRevival, total⟩

/-- The risk map of `assessPersonaDriftRisk`. -/
def assessPersonaDriftRisk (t : NudgeType) : ℚ :=
  match t with
  | .raise_stakes => mkRat 3 10
  | .vulnerability => mkRat 1 10
  | .comfort => mkRat 5 100
  | .recall => mkRat 1 10
  | .aside => mkRat 2 10
  | .tempo_up => mkRat 15 100
  | .tempo_down => mkRat 1 10

/-- The violations table of `assessActGrammarViolation` (0.1 baseline). -/
def assessActGrammarViolation (t : NudgeType) (act : Act) : ℚ :=
  match act, t with
  | .one, .raise_stakes => mkRat 8 10
  | .three, .comfort => mkRat 6 10
  | .four, .raise_stakes => mkRat 7 10
  | .five, .raise_stakes => mkRat 9 10
  | .five, .aside => mkRat 8 10
  | _, _ => mkRat 1 10

/-- `assessContinuityRisk`. -/
def assessContinuityRisk (candidate : Nudge) (callbackActivity : List String) : ℚ :=
  if candidate.type == .recall && callbackActivity.length == 0 then mkRat 8 10 else mkRat 1 10

/-- `assessSafetyRisk`. -/
def assessSafetyRisk (candidate : Nudge) : ℚ :=
  if candidate.type == .raise_stakes && candidate.intensity == .major then mkRat 2 10 else mkRat 5 100

/-- `calculateCoherenceCost`, with its act-dependent scaling. -/
def calculateCoherenceCost (candidate : Nudge) (act : Act)
    (callbackActivity : List String) : CoherenceComponents :=
  let personaDrift := assessPersonaDriftRisk candidate.type
  let actGrammarViolation := assessActGrammarViolation candidate.type act
  let continuityContradiction := assessContinuityRisk candidate callbackActivity
  let safetyGuard := assessSafetyRisk candidate
  let actWeight := ((act.toNat : ℚ) - 1) * mkRat 1 10 + 1
  let total := qmin 1 (actWeight *
    (mkRat 3 10 * personaDrift + mkRat 25 100 * actGrammarViolation +
     mkRat 25 100 * continuityContradiction + mkRat 2 10 * safetyGuard))
  ⟨personaDrift, actGrammarViolation, continuityContradiction, safetyGuard, total⟩

/-- `scoreNudgeCandidate`: freshness and coherence components, the
fragility-scaled λ, and the clamped final score. -/
def scoreNudgeCandidate (semanticNovelty : ℚ) (candidate : Nudge) (act : Act)
    (callbackActivity : List String) (recentChosenTypes : List NudgeType)
    (recentDeltas : List ChemistryDeltas) (fragility : FragilityComponents) :
    EvaluationScores :=
  let freshnessComponents :=
    calculateFreshnessGain semanticNovelty candidate recentChosenTypes recentDeltas
  let coherenceComponents := calculateCoherenceCost candidate act callbackActivity
  let lambda := calculateLambda fragility.total act
  let finalScore := freshnessComponents.total - lambda * coherenceComponents.total
  ⟨freshnessComponents.total, coherenceComponents.total, fragility.total,
   qmax (-1) (qmin 1 finalScore)⟩

/-! ### Range invariant predicates and concrete fixtures -/

/-- All four dimensions of a pair lie in the closed interval [0,1]. -/
def pairInRange (p : LoveGraphPair) : Prop :=
  0 ≤ p.attraction ∧ p.attraction ≤ 1 ∧
  0 ≤ p.trust ∧ p.trust ≤ 1 ∧
  0 ≤ p.tension ∧ p.tension ≤ 1 ∧
  0 ≤ p.comfort ∧ p.comfort ≤ 1

instance : DecidablePred pairInRange := fun p => by
  unfold pairInRange; infer_instance

/-- Every pair of a Love Graph is in range. -/
def graphInRange (g : LoveGraph) : Prop := ∀ e ∈ g, pairInRange e.2

instance (g : LoveGraph) : Decidable (graphInRange g) := by
  unfold graphInRange; infer_instance

/-- The exchange indices in a list are separated by at least 6, starting
from the baseline `m`. -/
def sepFrom (m : Nat) : List Nat → Prop
  | [] => True
  | a :: l => m + 6 ≤ a ∧ sepFrom a l

/-- Concrete fixture: a fresh two-character episode. -/
def seedAB : EpisodeSeed := { characters := ["a", "b"] }

def stateAB : StoryState := startEpisodeState seedAB

/-- Concrete fixture: a fresh two-character episode seeded with one open
callback token. -/
def seedABtok : EpisodeSeed := { characters := ["a", "b"], callbacks := ["tok"] }

def stateABtok : StoryState := startEpisodeState seedABtok

/-- Concrete fixture for the 1→2 checkpoint: attraction 0.45, no open
callback threads, no recent lines. -/
def stateC6 : StoryState :=
  { episode := ⟨[.one], [("a-b", ⟨mkRat 45 100, mkRat 1 10, mkRat 2 10, mkRat 1 10⟩)]⟩
    currentScene := ⟨.one, 0, ["a", "b"], 0, 0, none⟩
    spotlight := ["a", "b"]
    recentLines := []
    openLoops := []
    callbacks := []
    pendingNudges := []
    plateauCounter := 0
    lastMajorNudgeExchange := 0
    recoveryBias := none }

/-- A well-formed act path: non-empty and strictly stepping one act at
a time. -/
def goodPath (l : List Act) : Prop :=
  l ≠ [] ∧ List.Chain' (fun a b => b.toNat = a.toNat + 1) l

/-- Concrete fixture lines for a double-advancement tick: the first line
pushes attraction to 0.4 and tension to 0.6 (firing the 1→2 checkpoint via
the open callback), the second pushes tension to 0.8 (firing the 2→3
checkpoint via the recorded tension deltas). -/
def lineT1 : FinalLine := ⟨"a", "x", ⟨mkRat 3 10, 0, mkRat 4 10, 0⟩, []⟩

def lineT2 : FinalLine := ⟨"b", "y", ⟨0, 0, mkRat 2 10, 0⟩, []⟩

/-! ### Basic lemmas -/

theorem qmax_eq_max (a b : ℚ) : qmax a b = max a b := by
  unfold qmax
  split
  · next h => rw [max_eq_right h]
  · next h => rw [max_eq_left (le_of_not_le h)]

theorem qmin_eq_min (a b : ℚ) : qmin a b = min a b := by
  unfold qmin
  split
  · next h => rw [min_eq_left h]
  · next h => rw [min_eq_right (le_of_not_le h)]

theorem clamp01_eq (x : ℚ) : clamp01 x = max 0 (min 1 x) := by
  unfold clamp01
  rw [qmax_eq_max, qmin_eq_min]

theorem clamp01_nonneg (x : ℚ) : 0 ≤ clamp01 x := by
  rw [clamp01_eq]; exact le_max_left 0 _

theorem clamp01_le_one (x : ℚ) : clamp01 x ≤ 1 := by
  rw [clamp01_eq]
  rcases le_total 1 x with h | h
  · simp [min_eq_left, h]
  · simp [min_comm]

theorem clamp01_mono {x y : ℚ} (h : x ≤ y) : clamp01 x ≤ clamp01 y := by
  rw [clamp01_eq, clamp01_eq]
  exact max_le_max le_rfl (min_le_min le_rfl h)

theorem clamp01_of_mem {x : ℚ} (h0 : 0 ≤ x) (h1 : x ≤ 1) : clamp01 x = x := by
  rw [clamp01_eq, min_eq_right h1, max_eq_right h0]

theorem clampPair_inRange (p : LoveGraphPair) : pairInRange (clampPair p) :=
  ⟨clamp01_nonneg _, clamp01_le_one _, clamp01_nonneg _, clamp01_le_one _,
   clamp01_nonneg _, clamp01_le_one _, clamp01_nonneg _, clamp01_le_one _⟩

theorem ripplePair_inRange (d : ChemistryDeltas) (p : LoveGraphPair) :
    pairInRange (ripplePair d p) := by
  unfold ripplePair
  exact clampPair_inRange _

theorem setPair_mem {g : LoveGraph} {key : String} {v : LoveGraphPair} {e} :
    e ∈ setPair g key v → e ∈ g ∨ e.2 = v := by
  induction g with
  | nil => intro h; simp [setPair] at h
  | cons hd tl ih =>
    intro h
    unfold setPair at h
    by_cases hk : hd.1 == key
    · rw [if_pos hk] at h
      rcases List.mem_cons.mp h with h | h
      · right; rw [h]
      · left; exact List.mem_cons_of_mem _ h
    · rw [if_neg hk] at h
      rcases List.mem_cons.mp h with h | h
      · left; rw [h]; exact List.mem_cons_self _ _
      · rcases ih h with h | h
        · left; exact List.mem_cons_of_mem _ h
        · right; exact h

theorem applyRippleEffects_inRange (d : ChemistryDeltas) (pk : String)
    {g : LoveGraph} (hg : graphInRange g) :
    graphInRange (applyRippleEffects d pk g) := by
  intro e he
  unfold applyRippleEffects at he
  rcases List.mem_map.mp he with ⟨e0, he0, heq⟩
  by_cases hkey : e0.1 == pk
  · rw [if_pos hkey] at heq
    rw [← heq]; exact hg e0 he0
  · rw [if_neg hkey] at heq
    rw [← heq]
    exact ripplePair_inRange d e0.2

/-- How the ripple changes the attraction of a watcher pair. -/
theorem ripplePair_attraction_eq (d : ChemistryDeltas) (p : LoveGraphPair) :
    (ripplePair d p).attraction =
      clamp01 (if 0 < d.attraction ∨ 0 < d.comfort
               then p.attraction + d.attraction * rippleStrength
               else p.attraction) := by
  by_cases hcond : 0 < d.attraction ∨ 0 < d.comfort <;>
    by_cases htens : mkRat 1 10 < d.tension <;>
      simp [ripplePair, clampPair, hcond, htens]

/-- How the ripple changes the comfort of a watcher pair. -/
theorem ripplePair_comfort_eq (d : ChemistryDeltas) (p : LoveGraphPair) :
    (ripplePair d p).comfort =
      clamp01 (if 0 < d.attraction ∨ 0 < d.comfort
               then p.comfort + d.comfort * rippleStrength
               else p.comfort) := by
  by_cases hcond : 0 < d.attraction ∨ 0 < d.comfort <;>
    by_cases htens : mkRat 1 10 < d.tension <;>
      simp [ripplePair, clampPair, hcond, htens]

/-! ### Claim theorems -/

/-- C1 (claim): after the direct spotlight update of `updateLoveGraph`
and after every ripple of `applyRippleEffects`, each of the four dimensions
of every pair stays within the closed interval [0,1]. -/
theorem c1_love_graph_bounds :
    (∀ (s : StoryState) (line : SpokenLine), graphInRange s.episode.loveGraph →
      graphInRange (updateLoveGraph s line).episode.loveGraph) ∧
    (∀ (d : ChemistryDeltas) (pk : String) (g : LoveGraph), graphInRange g →
      graphInRange (applyRippleEffects d pk g)) := by
  constructor
  · intro s line hg
    cases h : lookupPair s.episode.loveGraph (spotlightKey s) with
    | none =>
      simp only [updateLoveGraph, h]
      exact hg
    | some cur =>
      simp only [updateLoveGraph, h]
      apply applyRippleEffects_inRange
      intro e he
      rcases setPair_mem he with hmem | hval
      · exact hg e hmem
      · rw [hval]; exact clampPair_inRange _
  · intro d pk g hg
    exact applyRippleEffects_inRange d pk hg

/-- Witness for C1 at a concrete state and line. -/
theorem c1_witness :
    graphInRange (updateLoveGraph stateAB
      ⟨"a", "hi", ⟨mkRat 3 10, mkRat 2 10, -mkRat 5 10, mkRat 9 10⟩⟩).episode.loveGraph :=
  c1_love_graph_bounds.1 stateAB
    ⟨"a", "hi", ⟨mkRat 3 10, mkRat 2 10, -mkRat 5 10, mkRat 9 10⟩⟩ (by decide)

/-- C2 (claim): the final score reported by `scoreNudgeCandidate` equals
freshness gain minus λ times coherence cost, clamped to [-1, 1], where
λ is the act base coherence weight times (0.6 + fragility × 1.2). -/
theorem c2_final_score_formula (semanticNovelty : ℚ) (candidate : Nudge)
    (act : Act) (callbackActivity : List String)
    (recentChosenTypes : List NudgeType) (recentDeltas : List ChemistryDeltas)
    (fragility : FragilityComponents) :
    (scoreNudgeCandidate semanticNovelty candidate act callbackActivity
        recentChosenTypes recentDeltas fragility).finalScore =
      qmax (-1) (qmin 1
        ((scoreNudgeCandidate semanticNovelty candidate act callbackActivity
            recentChosenTypes recentDeltas fragility).freshnessGain -
          (actCoherenceWeights act *
            (mkRat 6 10 + (scoreNudgeCandidate semanticNovelty candidate act callbackActivity
                recentChosenTypes recentDeltas fragility).fragilityIndex * mkRat 12 10)) *
          (scoreNudgeCandidate semanticNovelty candidate act callbackActivity
              recentChosenTypes recentDeltas fragility).coherenceCost)) := by
  rfl

/-- C4 (claim): a nudge whose type is in the blocked list of the current
act gate is always rejected by `applyNudge`, whatever the cadence state. -/
theorem c4_blocked_nudge_rejected (s : StoryState) (exchangeCounter : Nat)
    (n : Nudge) (safe : Bool)
    (hblocked : (actGates (getCurrentAct s)).blockedNudges.contains n.type = true) :
    (applyNudgeStory s exchangeCounter n safe).2 = false := by
  unfold applyNudgeStory
  rw [if_pos hblocked]

/-- Witness for C4: `raise_stakes` at act 1 is rejected even with the
cadence fully available. -/
theorem c4_witness :
    (actGates (getCurrentAct stateAB)).blockedNudges.contains NudgeType.raise_stakes = true ∧
    (applyNudgeStory stateAB 100 ⟨.raise_stakes, .major, none⟩ true).2 = false :=
  ⟨by decide,
   c4_blocked_nudge_rejected stateAB 100 ⟨.raise_stakes, .major, none⟩ true (by decide)⟩

/-- C7 (counterexample): with a single-character list — fewer than two
entries — `startEpisode` does not signal a failure: it returns a summary.
The source performs no character-count validation and JS out-of-range
indexing yields `undefined` without throwing. -/
theorem c7_counterexample :
    (["solo"] : List String).length < 2 ∧
    (startEpisode { characters := ["solo"] }).isOk = true := by
  constructor
  · decide
  · rfl

/-- C7 (amended): `startEpisode` never fails — for every seed, also one
with fewer than two characters, it creates an episode and returns a
summary. -/
theorem c7_amended_start_never_fails (seed : EpisodeSeed) :
    (startEpisode seed).isOk = true := rfl

/-- C8 (claim): during ripple propagation every non-spotlighted pair is
rippled; a positive attraction or comfort component of the primary delta
is passed on at exactly the 10% ripple strength (then clamped), and a
non-positive component never produces a gain in its dimension. -/
theorem c8_ripple_compersion (d : ChemistryDeltas) (k pk : String)
    (g : LoveGraph) (p : LoveGraphPair)
    (hmem : (k, p) ∈ g) (hk : ¬ (k = pk)) (hp : pairInRange p) :
    (k, ripplePair d p) ∈ applyRippleEffects d pk g ∧
    (0 < d.attraction →
      (ripplePair d p).attraction = clamp01 (p.attraction + d.attraction * rippleStrength)) ∧
    (0 < d.comfort →
      (ripplePair d p).comfort = clamp01 (p.comfort + d.comfort * rippleStrength)) ∧
    (d.attraction ≤ 0 → (ripplePair d p).attraction ≤ p.attraction) ∧
    (d.comfort ≤ 0 → (ripplePair d p).comfort ≤ p.comfort) := by
  obtain ⟨ha0, ha1, ht0, ht1, hn0, hn1, hc0, hc1⟩ := hp
  have hrs : (0 : ℚ) ≤ rippleStrength := by decide
  have hcond' : ¬ ((k == pk) = true) := by simp [hk]
  refine ⟨?_, ?_, ?_, ?_, ?_⟩
  · unfold applyRippleEffects
    have key : (fun e : String × LoveGraphPair =>
        if e.1 == pk then e else (e.1, ripplePair d e.2)) (k, p) = (k, ripplePair d p) := by
      show (if (k == pk) = true then (k, p) else (k, ripplePair d p)) = (k, ripplePair d p)
      exact if_neg hcond'
    have hmap := List.mem_map_of_mem
      (fun e : String × LoveGraphPair =>
        if e.1 == pk then e else (e.1, ripplePair d e.2)) hmem
    rw [key] at hmap
    exact hmap
  · intro hpos
    rw [ripplePair_attraction_eq, if_pos (Or.inl hpos)]
  · intro hpos
    rw [ripplePair_comfort_eq, if_pos (Or.inr hpos)]
  · intro hnonpos
    rw [ripplePair_attraction_eq]
    by_cases hcond : 0 < d.attraction ∨ 0 < d.comfort
    · rw [if_pos hcond]
      calc clamp01 (p.attraction + d.attraction * rippleStrength)
          ≤ clamp01 p.attraction := by
            apply clamp01_mono
            nlinarith [hnonpos, hrs]
        _ = p.attraction := clamp01_of_mem ha0 ha1
    · rw [if_neg hcond, clamp01_of_mem ha0 ha1]
  · intro hnonpos
    rw [ripplePair_comfort_eq]
    by_cases hcond : 0 < d.attraction ∨ 0 < d.comfort
    · rw [if_pos hcond]
      calc clamp01 (p.comfort + d.comfort * rippleStrength)
          ≤ clamp01 p.comfort := by
            apply clamp01_mono
            nlinarith [hnonpos, hrs]
        _ = p.comfort := clamp01_of_mem hc0 hc1
    · rw [if_neg hcond, clamp01_of_mem hc0 hc1]

/-- Witness for C8 at a concrete graph with one watcher pair. -/
theorem c8_witness :
    (("a-c", ripplePair ⟨mkRat 2 10, 0, 0, -mkRat 1 10⟩ ⟨mkRat 5 10, mkRat 5 10, mkRat 5 10, mkRat 5 10⟩) ∈
      applyRippleEffects ⟨mkRat 2 10, 0, 0, -mkRat 1 10⟩ "a-b"
        [("a-b", ⟨mkRat 5 10, mkRat 5 10, mkRat 5 10, mkRat 5 10⟩),
         ("a-c", ⟨mkRat 5 10, mkRat 5 10, mkRat 5 10, mkRat 5 10⟩)]) ∧
    (0 < mkRat 2 10 →
      (ripplePair ⟨mkRat 2 10, 0, 0, -mkRat 1 10⟩
        ⟨mkRat 5 10, mkRat 5 10, mkRat 5 10, mkRat 5 10⟩).attraction =
        clamp01 (mkRat 5 10 + mkRat 2 10 * rippleStrength)) ∧
    (-mkRat 1 10 ≤ 0 →
      (ripplePair ⟨mkRat 2 10, 0, 0, -mkRat 1 10⟩
        ⟨mkRat 5 10, mkRat 5 10, mkRat 5 10, mkRat 5 10⟩).comfort ≤ mkRat 5 10) := by
  have h := c8_ripple_compersion ⟨mkRat 2 10, 0, 0, -mkRat 1 10⟩ "a-c" "a-b"
    [("a-b", ⟨mkRat 5 10, mkRat 5 10, mkRat 5 10, mkRat 5 10⟩),
     ("a-c", ⟨mkRat 5 10, mkRat 5 10, mkRat 5 10, mkRat 5 10⟩)]
    ⟨mkRat 5 10, mkRat 5 10, mkRat 5 10, mkRat 5 10⟩ (by decide) (by decide) (by decide)
  exact ⟨h.1, fun _ => h.2.1 (by decide), fun _ => h.2.2.2.2 (by decide)⟩

/-- The cadence guard of `applyNudge`: a major nudge arriving fewer than
6 exchanges after the recorded last-major index is rejected (whatever the
act gate decides first). -/
theorem applyNudge_major_cooldown_reject (s : StoryState) (c : Nat) (n : Nudge)
    (safe : Bool) (hmaj : n.intensity = .major)
    (hlt : c < s.lastMajorNudgeExchange + 6) :
    (applyNudgeStory s c n safe).2 = false := by
  unfold applyNudgeStory
  by_cases hb : ((actGates (getCurrentAct s)).blockedNudges.contains n.type) = true
  · rw [if_pos hb]
  · rw [if_neg hb]
    by_cases ha : ((!(actGates (getCurrentAct s)).allowedNudges.contains n.type)) = true
    · rw [if_pos ha]
    · rw [if_neg ha]
      have hc : (n.intensity == NudgeIntensity.major &&
          decide (c - s.lastMajorNudgeExchange < 6)) = true := by
        rw [hmaj]
        simp only [beq_self_eq_true, Bool.true_and, decide_eq_true_eq]
        omega
      rw [if_pos hc]

/-- C6 (claim): at act 1 the checkpoint detector fires exactly when the
spotlighted pair has attraction at least 0.4 and either an open callback
thread exists or some recent line carried a trust delta above 0.05; with
only one of the two conditions (attraction 0.45, no callbacks, no trust
evidence) the episode stays in act 1; and a firing detector can only
report the 1→2 checkpoint. -/
theorem c6_mutual_spark_checkpoint (s : StoryState) (loveData : LoveGraphPair)
    (hact : getCurrentAct s = .one)
    (hpair : lookupPair s.episode.loveGraph (spotlightKey s) = some loveData) :
    ((∃ cp, checkActAdvancement s = some cp) ↔
      (mkRat 4 10 ≤ loveData.attraction ∧
        (s.callbacks ≠ [] ∨ ∃ l ∈ s.recentLines, mkRat 5 100 < l.deltas.trust))) ∧
    (∀ cp, checkActAdvancement s = some cp → cp = ⟨.mutual_spark, .one, .two⟩) := by
  have hfind : checkpoints.find? (fun c => c.fromAct == getCurrentAct s) =
      some ⟨.mutual_spark, .one, .two⟩ := by
    rw [hact]; decide
  have hcond : ((decide (mkRat 4 10 ≤ loveData.attraction) &&
      (decide (0 < s.callbacks.length) ||
        s.recentLines.any fun l => decide (mkRat 5 100 < l.deltas.trust))) = true) ↔
      (mkRat 4 10 ≤ loveData.attraction ∧
        (s.callbacks ≠ [] ∨ ∃ l ∈ s.recentLines, mkRat 5 100 < l.deltas.trust)) := by
    simp [List.length_pos]
  simp only [checkActAdvancement, hfind, hpair]
  constructor
  · constructor
    · rintro ⟨cp, hcp⟩
      split at hcp
      · next hb => exact hcond.mp hb
      · exact Option.noConfusion hcp
    · intro h
      exact ⟨_, by rw [if_pos (hcond.mpr h)]⟩
  · intro cp hcp
    split at hcp
    · exact (Option.some.inj hcp).symm
    · exact Option.noConfusion hcp

/-- Witness for C6: at the concrete state with attraction 0.45 but
no callbacks and no qualifying trust delta, the detector does not fire. -/
theorem c6_witness :
    ((∃ cp, checkActAdvancement stateC6 = some cp) ↔
      (mkRat 4 10 ≤ (⟨mkRat 45 100, mkRat 1 10, mkRat 2 10, mkRat 1 10⟩ : LoveGraphPair).attraction ∧
        (stateC6.callbacks ≠ [] ∨ ∃ l ∈ stateC6.recentLines, mkRat 5 100 < l.deltas.trust))) :=
  (c6_mutual_spark_checkpoint stateC6
    ⟨mkRat 45 100, mkRat 1 10, mkRat 2 10, mkRat 1 10⟩ (by decide) (by decide)).1

/-- C10 (claim): in a freshly started episode, `lastMajorNudgeExchange` is
initialised to 0, so every major nudge submitted while the exchange counter
is below 6 is rejected even though no major nudge was ever accepted. -/
theorem c10_fresh_episode_major_rejected :
    (∀ seed : EpisodeSeed, (startEpisodeState seed).lastMajorNudgeExchange = 0) ∧
    (∀ (s : StoryState) (c : Nat) (n : Nudge) (safe : Bool),
      s.lastMajorNudgeExchange = 0 → c < 6 → n.intensity = .major →
      (applyNudgeStory s c n safe).2 = false) := by
  constructor
  · intro seed
    simp only [startEpisodeState]
    split <;> rfl
  · intro s c n safe h0 hclt hmaj
    exact applyNudge_major_cooldown_reject s c n safe hmaj (by omega)

/-- Witness for C10: a major comfort nudge (type allowed at act 1) at
exchange 3 of a fresh episode is still rejected. -/
theorem c10_witness :
    (startEpisodeState seedABtok).lastMajorNudgeExchange = 0 ∧
    (applyNudgeStory stateAB 3 ⟨.comfort, .major, none⟩ true).2 = false :=
  ⟨c10_fresh_episode_major_rejected.1 seedABtok,
   c10_fresh_episode_major_rejected.2 stateAB 3 ⟨.comfort, .major, none⟩ true
     (by decide) (by decide) rfl⟩

section

attribute [local semireducible] Rat.add Rat.mul Rat.sub Rat.inv

/-- C9 (counterexample): the claim that a tick takes at most one act
transition fails — `tick` runs the checkpoint detector after every produced
line with no once-per-tick guard, so a two-line tick can take the 1→2 and
2→3 transitions in sequence: its transitions list has two elements. -/
theorem c9_counterexample :
    ¬ ((tickStory stateABtok [lineT1, lineT2]).2.length ≤ 1) := by
  decide

end

/-- C9 (amended): each produced line can take at most one transition, so
`tick` returns at most one transition per line — `lines.length` many in a
tick, not one per tick. -/
theorem c9_amended_transitions_per_line (s : StoryState) (lines : List FinalLine) :
    (tickStory s lines).2.length ≤ lines.length := by
  have h : ∀ (lines : List FinalLine) (s : StoryState),
      (tickLoop s lines).2.length ≤ lines.length := by
    intro lines
    induction lines with
    | nil => intro s; simp [tickLoop]
    | cons fl rest ih =>
      intro s
      simp only [tickLoop]
      cases htr : (tickStep s fl).2 with
      | none =>
        simp only [List.length_cons]
        exact Nat.le_succ_of_le (ih _)
      | some t =>
        simp only [List.length_cons]
        exact Nat.succ_le_succ (ih _)
  simpa [tickStory] using h lines s

/-! ### Preservation lemmas for episode runs -/

theorem processLine_lastMajor (s : StoryState) (fl : FinalLine) :
    (processLine s fl).1.lastMajorNudgeExchange = s.lastMajorNudgeExchange := rfl

theorem updateLoveGraph_lastMajor (s : StoryState) (line : SpokenLine) :
    (updateLoveGraph s line).lastMajorNudgeExchange = s.lastMajorNudgeExchange := by
  cases h : lookupPair s.episode.loveGraph (spotlightKey s) <;>
    simp [updateLoveGraph, h]

theorem advanceAct_lastMajor (s : StoryState) (cp : Checkpoint) :
    ((advanceAct s cp).1).lastMajorNudgeExchange = s.lastMajorNudgeExchange := rfl

theorem checkPlateau_lastMajor (s : StoryState) :
    (checkPlateau s).lastMajorNudgeExchange = s.lastMajorNudgeExchange := by
  simp only [checkPlateau]
  split
  · rfl
  · split <;> rfl

theorem tickStep_lastMajor (s : StoryState) (fl : FinalLine) :
    (tickStep s fl).1.lastMajorNudgeExchange = s.lastMajorNudgeExchange := by
  simp only [tickStep]
  cases hc : checkActAdvancement (updateLoveGraph (processLine s fl).1 (processLine s fl).2) with
  | none =>
    exact (checkPlateau_lastMajor _).trans
      ((updateLoveGraph_lastMajor _ _).trans (processLine_lastMajor _ _))
  | some cp =>
    exact (checkPlateau_lastMajor _).trans ((advanceAct_lastMajor _ _).trans
      ((updateLoveGraph_lastMajor _ _).trans (processLine_lastMajor _ _)))

theorem tickLoop_lastMajor :
    ∀ (lines : List FinalLine) (s : StoryState),
      (tickLoop s lines).1.lastMajorNudgeExchange = s.lastMajorNudgeExchange := by
  intro lines
  induction lines with
  | nil => intro s; rfl
  | cons fl rest ih =>
    intro s
    exact (ih _).trans (tickStep_lastMajor _ _)

theorem updateRecoveryBias_lastMajor (s : StoryState) :
    (updateRecoveryBias s).lastMajorNudgeExchange = s.lastMajorNudgeExchange := by
  cases hrb : s.recoveryBias with
  | none => simp only [updateRecoveryBias, hrb]
  | some rb =>
    simp only [updateRecoveryBias, hrb]
    split <;> rfl

theorem tickStory_lastMajor (s : StoryState) (lines : List FinalLine) :
    (tickStory s lines).1.lastMajorNudgeExchange = s.lastMajorNudgeExchange :=
  (updateRecoveryBias_lastMajor _).trans (tickLoop_lastMajor lines s)

theorem applyNudge_reject_state (s : StoryState) (c : Nat) (n : Nudge) (safe : Bool)
    (h : (applyNudgeStory s c n safe).2 = false) :
    (applyNudgeStory s c n safe).1 = s := by
  simp only [applyNudgeStory] at h ⊢
  split_ifs at h ⊢ with h1 h2 h3 h4 h5
  · rfl
  · rfl
  · rfl
  · rfl

theorem applyNudge_minor_lastMajor (s : StoryState) (c : Nat) (n : Nudge) (safe : Bool)
    (hmin : n.intensity = .minor) :
    (applyNudgeStory s c n safe).1.lastMajorNudgeExchange = s.lastMajorNudgeExchange := by
  simp only [applyNudgeStory]
  split_ifs with h1 h2 h3 h4 h5
  · rfl
  · rfl
  · rfl
  · rfl
  · exfalso; rw [hmin] at h5; simp at h5
  · rfl

theorem applyNudge_accept_major (s : StoryState) (c : Nat) (n : Nudge) (safe : Bool)
    (hres : (applyNudgeStory s c n safe).2 = true) (hmaj : n.intensity = .major) :
    s.lastMajorNudgeExchange + 6 ≤ c ∧
    (applyNudgeStory s c n safe).1.lastMajorNudgeExchange = c := by
  simp only [applyNudgeStory] at hres ⊢
  split_ifs at hres ⊢ with h1 h2 h3 h4 h5
  · refine ⟨?_, rfl⟩
    rw [hmaj] at h3
    simp only [beq_self_eq_true, Bool.true_and, decide_eq_true_eq] at h3
    omega
  · exfalso
    rw [hmaj] at h5
    simp at h5

/-! ### The major-nudge cadence over runs -/

theorem sepFrom_acceptedMajors :
    ∀ (evs : List Event) (st : EngineSt),
      sepFrom st.story.lastMajorNudgeExchange (acceptedMajors st evs) := by
  intro evs
  induction evs with
  | nil => intro st; exact trivial
  | cons e rest ih =>
    intro st
    cases e with
    | tickEv lines =>
      have h := ih (stepEv st (.tickEv lines))
      have hl : (stepEv st (.tickEv lines)).story.lastMajorNudgeExchange =
          st.story.lastMajorNudgeExchange := tickStory_lastMajor _ _
      rw [hl] at h
      exact h
    | nudgeEv n safe =>
      cases hcond : ((applyNudgeStory st.story st.exchangeCounter n safe).2 &&
          n.intensity == NudgeIntensity.major) with
      | false =>
        have hl : (stepEv st (.nudgeEv n safe)).story.lastMajorNudgeExchange =
            st.story.lastMajorNudgeExchange := by
          show (applyNudgeStory st.story st.exchangeCounter n safe).1.lastMajorNudgeExchange =
            st.story.lastMajorNudgeExchange
          cases hres : (applyNudgeStory st.story st.exchangeCounter n safe).2 with
          | false => rw [applyNudge_reject_state _ _ _ _ hres]
          | true =>
            have hmin : n.intensity = .minor := by
              cases hi : n.intensity
              · rfl
              · rw [hres, hi] at hcond; simp at hcond
            exact applyNudge_minor_lastMajor _ _ _ _ hmin
        have h := ih (stepEv st (.nudgeEv n safe))
        rw [hl] at h
        simp only [acceptedMajors, hcond, Bool.false_eq_true, if_false]
        exact h
      | true =>
        have hand := hcond
        rw [Bool.and_eq_true] at hand
        obtain ⟨hres, hbeq⟩ := hand
        have hmaj : n.intensity = .major := by simpa using hbeq
        obtain ⟨hge, hset⟩ :=
          applyNudge_accept_major st.story st.exchangeCounter n safe hres hmaj
        simp only [acceptedMajors, hcond, if_true]
        refine ⟨hge, ?_⟩
        have h := ih (stepEv st (.nudgeEv n safe))
        have hl : (stepEv st (.nudgeEv n safe)).story.lastMajorNudgeExchange =
            st.exchangeCounter := hset
        rw [hl] at h
        exact h

theorem sepFrom_chain :
    ∀ (l : List Nat) (m : Nat), sepFrom m l →
      List.Chain' (fun a b => a + 6 ≤ b) l := by
  intro l
  induction l with
  | nil => intro m h; exact List.chain'_nil
  | cons a rest ih =>
    intro m h
    obtain ⟨h1, h2⟩ := h
    rw [List.chain'_cons']
    refine ⟨?_, ih a h2⟩
    intro y hy
    cases rest with
    | nil => simp at hy
    | cons b rest2 =>
      simp at hy
      obtain ⟨h21, _⟩ := h2
      exact hy ▸ h21

/-- C3 (claim): along any sequence of ticks and nudge requests within one
episode, the exchange indices of accepted major nudges are at least 6
apart, and a major nudge submitted fewer than 6 exchanges after the last
recorded major is rejected. -/
theorem c3_major_nudge_cadence (st : EngineSt) (evs : List Event) :
    List.Chain' (fun a b => a + 6 ≤ b) (acceptedMajors st evs) ∧
    (∀ (n : Nudge) (safe : Bool), n.intensity = .major →
      st.exchangeCounter < st.story.lastMajorNudgeExchange + 6 →
      (applyNudgeStory st.story st.exchangeCounter n safe).2 = false) :=
  ⟨sepFrom_chain _ _ (sepFrom_acceptedMajors evs st),
   fun n safe hmaj hlt => applyNudge_major_cooldown_reject _ _ n safe hmaj hlt⟩

/-- Witness for C3 at a concrete run and a concrete early major nudge. -/
theorem c3_witness :
    List.Chain' (fun a b => a + 6 ≤ b) (acceptedMajors ⟨stateAB, 0⟩ []) ∧
    (applyNudgeStory stateAB 2 ⟨.comfort, .major, none⟩ true).2 = false :=
  ⟨(c3_major_nudge_cadence ⟨stateAB, 0⟩ []).1,
   (c3_major_nudge_cadence ⟨stateAB, 2⟩ []).2 ⟨.comfort, .major, none⟩ true rfl
     (by decide)⟩

/-! ### Act-path monotonicity over runs -/

theorem processLine_episode (s : StoryState) (fl : FinalLine) :
    (processLine s fl).1.episode = s.episode := rfl

theorem updateLoveGraph_actPath (s : StoryState) (line : SpokenLine) :
    (updateLoveGraph s line).episode.actPath = s.episode.actPath := by
  cases h : lookupPair s.episode.loveGraph (spotlightKey s) <;>
    simp [updateLoveGraph, h]

theorem advanceAct_actPath (s : StoryState) (cp : Checkpoint) :
    ((advanceAct s cp).1).episode.actPath = s.episode.actPath ++ [cp.toAct] := rfl

theorem checkPlateau_episode (s : StoryState) :
    (checkPlateau s).episode = s.episode := by
  simp only [checkPlateau]
  split
  · rfl
  · split <;> rfl

theorem updateRecoveryBias_episode (s : StoryState) :
    (updateRecoveryBias s).episode = s.episode := by
  cases hrb : s.recoveryBias with
  | none => simp only [updateRecoveryBias, hrb]
  | some rb =>
    simp only [updateRecoveryBias, hrb]
    split <;> rfl

theorem applyNudge_episode (s : StoryState) (c : Nat) (n : Nudge) (safe : Bool) :
    ((applyNudgeStory s c n safe).1).episode = s.episode := by
  simp only [applyNudgeStory]
  split_ifs <;> rfl

/-- Every checkpoint of the static table moves forward by exactly one act. -/
theorem checkpoint_steps : ∀ cp ∈ checkpoints, cp.toAct.toNat = cp.fromAct.toNat + 1 := by
  decide

/-- A firing detector returns a checkpoint of the table whose source act is
the current act. -/
theorem checkActAdvancement_spec (s : StoryState) (cp : Checkpoint)
    (h : checkActAdvancement s = some cp) :
    cp ∈ checkpoints ∧ cp.fromAct = getCurrentAct s := by
  simp only [checkActAdvancement] at h
  cases hf : checkpoints.find? (fun c => c.fromAct == getCurrentAct s) with
  | none => rw [hf] at h; exact Option.noConfusion h
  | some c =>
    simp only [hf] at h
    have hmem := List.mem_of_find?_eq_some hf
    have hfa : c.fromAct = getCurrentAct s := by
      have := List.find?_some hf
      simpa using this
    cases hl : lookupPair s.episode.loveGraph (spotlightKey s) with
    | none =>
      simp only [hl] at h
      exact Option.noConfusion h
    | some loveData =>
      simp only [hl] at h
      have hcp : c = cp := by
        cases hct : c.ctype <;> simp only [hct] at h <;>
          (split at h
           · exact Option.some.inj h
           · exact Option.noConfusion h)
      subst hcp
      exact ⟨hmem, hfa⟩

theorem getLast?_getCurrentAct (s : StoryState) (h : s.episode.actPath ≠ []) :
    s.episode.actPath.getLast? = some (getCurrentAct s) := by
  unfold getCurrentAct
  cases hl : s.episode.actPath.getLast? with
  | none =>
    have := List.getLast?_isSome.mpr h
    rw [hl] at this
    simp at this
  | some a => rfl

theorem goodPath_append (l : List Act) (a b : Act) (h : goodPath l)
    (hlast : l.getLast? = some a) (hstep : b.toNat = a.toNat + 1) :
    goodPath (l ++ [b]) := by
  obtain ⟨hne, hch⟩ := h
  refine ⟨by simp, ?_⟩
  rw [List.chain'_append]
  refine ⟨hch, List.chain'_singleton _, ?_⟩
  intro x hx y hy
  rw [hlast] at hx
  simp at hx hy
  subst hx
  subst hy
  exact hstep

theorem tickStep_goodPath (s : StoryState) (fl : FinalLine)
    (h : goodPath s.episode.actPath) :
    goodPath (tickStep s fl).1.episode.actPath := by
  have hpath2 : (updateLoveGraph (processLine s fl).1 (processLine s fl).2).episode.actPath =
      s.episode.actPath := by
    rw [updateLoveGraph_actPath]
    rw [processLine_episode]
  cases hc : checkActAdvancement (updateLoveGraph (processLine s fl).1 (processLine s fl).2) with
  | none =>
    have heq : (tickStep s fl).1 =
        checkPlateau (updateLoveGraph (processLine s fl).1 (processLine s fl).2) := by
      simp only [tickStep, hc]
    rw [heq, checkPlateau_episode, hpath2]
    exact h
  | some cp =>
    have heq : (tickStep s fl).1 =
        checkPlateau (advanceAct (updateLoveGraph (processLine s fl).1 (processLine s fl).2) cp).1 := by
      simp only [tickStep, hc]
    obtain ⟨hmem, hfa⟩ := checkActAdvancement_spec _ cp hc
    have hstep := checkpoint_steps cp hmem
    have hcur : getCurrentAct (updateLoveGraph (processLine s fl).1 (processLine s fl).2) =
        getCurrentAct s := by
      unfold getCurrentAct
      rw [hpath2]
    rw [hcur] at hfa
    rw [heq, checkPlateau_episode, advanceAct_actPath, hpath2]
    apply goodPath_append s.episode.actPath (getCurrentAct s) cp.toAct h
    · exact getLast?_getCurrentAct s h.1
    · rw [hfa] at hstep
      exact hstep

theorem tickLoop_goodPath :
    ∀ (lines : List FinalLine) (s : StoryState), goodPath s.episode.actPath →
      goodPath (tickLoop s lines).1.episode.actPath := by
  intro lines
  induction lines with
  | nil => intro s h; exact h
  | cons fl rest ih =>
    intro s h
    exact ih _ (tickStep_goodPath s fl h)

theorem tickStory_goodPath (s : StoryState) (lines : List FinalLine)
    (h : goodPath s.episode.actPath) :
    goodPath (tickStory s lines).1.episode.actPath := by
  have h2 := tickLoop_goodPath lines s h
  have heq : (tickStory s lines).1.episode = (tickLoop s lines).1.episode :=
    updateRecoveryBias_episode _
  rw [heq]
  exact h2

theorem stepEv_goodPath (st : EngineSt) (e : Event)
    (h : goodPath st.story.episode.actPath) :
    goodPath (stepEv st e).story.episode.actPath := by
  cases e with
  | tickEv lines => exact tickStory_goodPath _ _ h
  | nudgeEv n safe =>
    show goodPath ((applyNudgeStory st.story st.exchangeCounter n safe).1).episode.actPath
    rw [applyNudge_episode]
    exact h

/-- C5 (claim): starting from a fresh episode, after any sequence of ticks
and nudges the act path only ever steps forward by exactly one act
(1→2→3→4→5) and is non-decreasing — no skips, no regressions. -/
theorem c5_act_path_monotone (seed : EpisodeSeed) (evs : List Event) :
    List.Chain' (fun a b => b.toNat = a.toNat + 1)
      (runEvents ⟨startEpisodeState seed, 0⟩ evs).story.episode.actPath ∧
    List.Chain' (fun a b => a.toNat ≤ b.toNat)
      (runEvents ⟨startEpisodeState seed, 0⟩ evs).story.episode.actPath := by
  have hstart : goodPath (startEpisodeState seed).episode.actPath := by
    have hpath : (startEpisodeState seed).episode.actPath = [Act.one] := by
      simp only [startEpisodeState]
      split <;> rfl
    rw [hpath]
    exact ⟨by simp, List.chain'_singleton _⟩
  have hrun : ∀ (evs : List Event) (st : EngineSt), goodPath st.story.episode.actPath →
      goodPath (runEvents st evs).story.episode.actPath := by
    intro evs
    induction evs with
    | nil => intro st h; exact h
    | cons e rest ih =>
      intro st h
      exact ih _ (stepEv_goodPath st e h)
  have hg := hrun evs ⟨startEpisodeState seed, 0⟩ hstart
  exact ⟨hg.2, List.Chain'.imp (fun a b hab => by omega) hg.2⟩

end NudgeNBlush
